import Mathlib

/-!
Verification of `pyvcloud/vcd/client.py` (vCloud Director REST client).

Shallow embedding: the client's pure decision logic is translated into Lean
functions; the HTTP layer is modelled by passing the server's responses in
explicitly (a poll sequence for the task monitor, a status-code sequence for
the chunked upload, a URI-indexed page table for the query engine).  Machine
floats used for wall-clock seconds are modelled as rationals; generator
nontermination is modelled with an explicit fuel parameter whose exhaustion
is a distinguished outcome.
-/

namespace PyVcd

/-- Python runtime errors raised by defects in the embedded code paths. -/
inductive PyError where
  | typeError
  | unboundLocalError
  deriving DecidableEq, Repr

/-- The `TaskStatus` enum (client.py lines 551-558). -/
inductive TaskStatus where
  | QUEUED
  | PRE_RUNNING
  | RUNNING
  | SUCCESS
  | ERROR
  | CANCELED
  | ABORTED
  deriving DecidableEq, Repr

/-- `.value` of each `TaskStatus` member. -/
def TaskStatus.value : TaskStatus → String
  | .QUEUED => "queued"
  | .PRE_RUNNING => "preRunning"
  | .RUNNING => "running"
  | .SUCCESS => "success"
  | .ERROR => "error"
  | .CANCELED => "canceled"
  | .ABORTED => "aborted"

/-- Python's `str.lower()` for the ASCII status strings compared by the
task monitor, as a structural map over the character list (the library's
`String.toLower` is definitionally equivalent but not kernel-reducible). -/
def pyLower (s : String) : String := String.mk (s.data.map Char.toLower)

/-- A polled task resource: its `href` and `status` attributes and the
`Error` payload attached to failed tasks (`task.Error`). -/
structure Task where
  href : String
  status : String
  errorBody : String
  deriving DecidableEq, Repr

/-- Outcome of `_TaskMonitor.wait_for_status` (client.py lines 594-644).
`nonterminating` marks exhaustion of the loop fuel: the concrete loop is
still running (it neither returned nor raised). -/
inductive WaitResult where
  | ok (t : Task)
  | vcdTaskException (task_status : String) (errorBody : String)
  | taskTimeoutException
  | pyError (e : PyError)
  | nonterminating
  deriving DecidableEq, Repr

/-- The `fail_on_statuses` argument: Python allows `None`, a single
`TaskStatus`, or a list of them (client.py lines 622-627). -/
inductive FailOnArg where
  | noneArg
  | single (s : TaskStatus)
  | list (l : List TaskStatus)
  deriving DecidableEq, Repr

/-- Normalization of `fail_on_statuses` at the top of `wait_for_status`
(client.py lines 622-627).  The single-`TaskStatus` branch executes
`_fail_on_statuses[fail_on_statuses]`, a subscript expression that reads the
local `_fail_on_statuses` before any assignment to it, so Python raises
`UnboundLocalError`; it never produces a one-element list. -/
def normalize_fail_on_statuses : FailOnArg → Except PyError (List TaskStatus)
  | .noneArg => .ok []
  | .single _ => .error .unboundLocalError
  | .list l => .ok l

/-- The polling loop of `wait_for_status` (client.py lines 630-644).
`polls i` is the task document returned by the i-th `_get_task_status`
re-fetch; the wall clock at iteration `i` is `start_time + i * poll_frequency`
(the loop sleeps `poll_frequency` between polls).  The timeout test is the
source's literal `start_time - datetime.now() > timedelta(seconds=timeout)`.
The optional progress callback only observes the task and is omitted. -/
def waitLoop (polls : Nat → Task) (timeout poll_frequency : Rat)
    (_fail_on_statuses expected_target_statuses : List TaskStatus)
    (start_time : Rat) : Nat → Nat → WaitResult
  | _, 0 => .nonterminating
  | i, fuel + 1 =>
    let task := polls i
    let task_status := pyLower task.status
    if expected_target_statuses.any (fun s => task_status == pyLower s.value) then
      .ok task
    else if _fail_on_statuses.any (fun s => task_status == pyLower s.value) then
      .vcdTaskException task_status task.errorBody
    else if start_time - (start_time + (i : Rat) * poll_frequency) > timeout then
      .taskTimeoutException
    else
      waitLoop polls timeout poll_frequency _fail_on_statuses
        expected_target_statuses start_time (i + 1) fuel

/-- `_TaskMonitor.wait_for_status` (client.py lines 594-644): normalize
`fail_on_statuses`, then run the polling loop from iteration 0. -/
def wait_for_status (polls : Nat → Task) (timeout poll_frequency : Rat)
    (fail_on_statuses : FailOnArg) (expected_target_statuses : List TaskStatus)
    (start_time : Rat) (fuel : Nat) : WaitResult :=
  match normalize_fail_on_statuses fail_on_statuses with
  | .error e => .pyError e
  | .ok l =>
    waitLoop polls timeout poll_frequency l expected_target_statuses
      start_time 0 fuel

/-- The polling loop itself never produces a `pyError` outcome. -/
theorem waitLoop_ne_pyError (polls : Nat → Task) (timeout poll_frequency : Rat)
    (fo tg : List TaskStatus) (start_time : Rat) (i fuel : Nat) (e : PyError) :
    waitLoop polls timeout poll_frequency fo tg start_time i fuel ≠
      .pyError e := by
  induction fuel generalizing i with
  | zero => simp [waitLoop]
  | succ n ih =>
    rw [waitLoop]
    split
    · simp
    · split
      · simp
      · split
        · simp
        · exact ih (i + 1)

/-- C1: in `wait_for_status`, the timeout test compares
`start_time - datetime.now()` — a nonpositive quantity — against the
(nonnegative) timeout, so it can never be true: for a task stuck at a status
matching neither the target nor the fail-on statuses, the loop never raises
`TaskTimeoutException` and never exits, however much wall-clock time passes
(here: however much fuel it is given).  This refutes the claim that the call
fails with `TaskTimeout` once elapsed time exceeds `timeout`. -/
theorem wait_for_status_never_times_out (stuck : Task)
    (hstuck : stuck.status = "running") (timeout poll_frequency : Rat)
    (start_time : Rat) (htimeout : 0 ≤ timeout) (hpoll : 0 ≤ poll_frequency)
    (fuel : Nat) :
    wait_for_status (fun _ => stuck) timeout poll_frequency
      (.list [.ABORTED, .CANCELED, .ERROR]) [.SUCCESS] start_time fuel =
      .nonterminating := by
  rw [wait_for_status]
  suffices h : ∀ fuel i, waitLoop (fun _ => stuck) timeout poll_frequency
      [.ABORTED, .CANCELED, .ERROR] [.SUCCESS] start_time i fuel =
      .nonterminating from h fuel 0
  intro f
  induction f with
  | zero => intro i; rfl
  | succ n ih =>
    intro i
    rw [waitLoop]
    have h1 : ([TaskStatus.SUCCESS].any
        (fun s => pyLower stuck.status == pyLower s.value)) = false := by
      rw [hstuck]; decide
    have h2 : (([TaskStatus.ABORTED, TaskStatus.CANCELED,
        TaskStatus.ERROR]).any
        (fun s => pyLower stuck.status == pyLower s.value)) = false := by
      rw [hstuck]; decide
    have h3 : ¬ (start_time - (start_time + (i : Rat) * poll_frequency) >
        timeout) := by
      have hi : (0 : Rat) ≤ (i : Rat) * poll_frequency :=
        mul_nonneg (by positivity) hpoll
      intro hgt
      have : start_time - (start_time + (i : Rat) * poll_frequency) ≤ 0 := by
        linarith
      linarith
    simp only [h1, h2, if_neg h3, if_false, Bool.false_eq_true]
    exact ih (i + 1)

/-- Witness for C1's theorem at a concrete input: the stuck-at-"running"
task with `timeout = 1/50` (0.02 s) and `poll_frequency = 1/100` is still
polling after 5 iterations and has not raised `TaskTimeoutException`. -/
theorem wait_for_status_never_times_out_witness :
    (Task.mk "https://vcd/task/1" "running" "").status = "running" ∧
    (0 : Rat) ≤ 1 / 50 ∧ (0 : Rat) ≤ 1 / 100 ∧
    wait_for_status (fun _ => Task.mk "https://vcd/task/1" "running" "")
      (1 / 50) (1 / 100) (.list [.ABORTED, .CANCELED, .ERROR]) [.SUCCESS]
      0 5 = .nonterminating :=
  ⟨rfl, by norm_num, by norm_num,
    wait_for_status_never_times_out _ rfl _ _ 0 (by norm_num) (by norm_num) 5⟩

/-- C8: passing a single `TaskStatus` as `fail_on_statuses` hits the
normalization branch `_fail_on_statuses[fail_on_statuses]`, which subscripts
a local that was never assigned: the call raises `UnboundLocalError`
whatever the task does, and in particular never behaves like the same call
with the one-element list `[s]` (which never raises that error). -/
theorem wait_for_status_single_fail_on (s : TaskStatus) (polls : Nat → Task)
    (timeout poll_frequency start_time : Rat)
    (expected_target_statuses : List TaskStatus) (fuel : Nat) :
    wait_for_status polls timeout poll_frequency (.single s)
        expected_target_statuses start_time fuel =
      .pyError .unboundLocalError ∧
    wait_for_status polls timeout poll_frequency (.list [s])
        expected_target_statuses start_time fuel ≠
      .pyError .unboundLocalError ∧
    wait_for_status polls timeout poll_frequency (.single s)
        expected_target_statuses start_time fuel ≠
      wait_for_status polls timeout poll_frequency (.list [s])
        expected_target_statuses start_time fuel := by
  refine ⟨rfl, ?_, ?_⟩
  · rw [wait_for_status]
    exact waitLoop_ne_pyError _ _ _ _ _ _ _ _ _
  · rw [wait_for_status, wait_for_status]
    dsimp only [normalize_fail_on_statuses]
    exact fun h =>
      waitLoop_ne_pyError polls timeout poll_frequency [s]
        expected_target_statuses start_time 0 fuel .unboundLocalError h.symm

/-! ## Request pipeline: status-code mapping and chunked-upload retry -/

/-- The status-code-mapped error taxonomy raised by
`Client._response_code_to_exception` (client.py lines 1184-1221), one
constructor per exception class.

Modelled from the spec: `pyvcloud/vcd/exceptions.py` is not among the
sources (client.py only imports these classes).  Per the spec, §3 and §7,
the status-mapped errors form a single taxonomy whose instances uniformly
carry (status code, request id, parsed body) — exactly how
`_response_code_to_exception` constructs every one of them — and
`VcdResponseException` (also imported, and caught in `upload_fragment`) is
their common base class.  `isVcdResponseException` records that hierarchy
fact: every taxonomy member is an instance of `VcdResponseException`. -/
inductive VcdResponseExceptionClass where
  | badRequest
  | unauthorized
  | accessForbidden
  | notFound
  | methodNotAllowed
  | notAcceptable
  | requestTimeout
  | conflict
  | unsupportedMediaType
  | invalidContentLength
  | internalServer
  | unknownApi
  deriving DecidableEq, Repr

/-- Whether an exception of the taxonomy is caught by
`except VcdResponseException` (see `VcdResponseExceptionClass` above:
every status-mapped class derives from `VcdResponseException`). -/
def isVcdResponseException (_ : VcdResponseExceptionClass) : Bool := true

/-- `Client._response_code_to_exception` (client.py lines 1184-1221): the
total map from HTTP status code to the raised exception class, with
`UnknownApiException` as the catch-all.  The `requests.codes` names are
replaced by their numeric values. -/
def _response_code_to_exception (sc : Nat) : VcdResponseExceptionClass :=
  if sc = 400 then .badRequest
  else if sc = 401 then .unauthorized
  else if sc = 403 then .accessForbidden
  else if sc = 404 then .notFound
  else if sc = 405 then .methodNotAllowed
  else if sc = 406 then .notAcceptable
  else if sc = 408 then .requestTimeout
  else if sc = 409 then .conflict
  else if sc = 415 then .unsupportedMediaType
  else if sc = 416 then .invalidContentLength
  else if sc = 500 then .internalServer
  else .unknownApi

/-- `Client._UPLOAD_FRAGMENT_MAX_RETRIES` (client.py line 739). -/
def _UPLOAD_FRAGMENT_MAX_RETRIES : Nat := 5

/-- One iteration of the `for attempt in range(1, MAX_RETRIES + 1)` loop of
`Client.upload_fragment` (client.py lines 1317-1352).  `responses a` is the
HTTP status code the server returns for the a-th PUT of the byte range.
A non-200 status raises the mapped exception; the `except
VcdResponseException` clause catches it and retries unless this was the
last attempt, in which case it re-raises.  On 200 the response (identified
here by its attempt number) is returned. -/
def upload_fragment_go (responses : Nat → Nat) (attempt : Nat) :
    Except VcdResponseExceptionClass Nat :=
  let sc := responses attempt
  if sc ≠ 200 then
    let e := _response_code_to_exception sc
    if isVcdResponseException e then
      if h : attempt < _UPLOAD_FRAGMENT_MAX_RETRIES then
        upload_fragment_go responses (attempt + 1)
      else
        .error e
    else
      .error e
  else
    .ok attempt
termination_by _UPLOAD_FRAGMENT_MAX_RETRIES + 1 - attempt
decreasing_by omega

/-- `Client.upload_fragment` (client.py lines 1317-1352): run the bounded
retry loop starting from attempt 1. -/
def upload_fragment (responses : Nat → Nat) :
    Except VcdResponseExceptionClass Nat :=
  upload_fragment_go responses 1

/-- If every attempt from `a` through 5 gets a non-200 status, the loop
raises the exception mapped from the 5th response. -/
theorem upload_fragment_go_all_fail (responses : Nat → Nat) :
    ∀ n a, 5 - a ≤ n → 1 ≤ a → a ≤ 5 →
    (∀ j, a ≤ j → j ≤ 5 → responses j ≠ 200) →
    upload_fragment_go responses a =
      .error (_response_code_to_exception (responses 5)) := by
  intro n
  induction n with
  | zero =>
    intro a hn h1 h5 hfail
    have ha : a = 5 := by omega
    subst ha
    rw [upload_fragment_go]
    simp only [isVcdResponseException, if_true]
    rw [if_pos (hfail 5 (by omega) (by omega))]
    rw [dif_neg (by simp [_UPLOAD_FRAGMENT_MAX_RETRIES])]
  | succ n ih =>
    intro a hn h1 h5 hfail
    by_cases ha : a = 5
    · subst ha
      rw [upload_fragment_go]
      simp only [isVcdResponseException, if_true]
      rw [if_pos (hfail 5 (by omega) (by omega))]
      rw [dif_neg (by simp [_UPLOAD_FRAGMENT_MAX_RETRIES])]
    · have halt : a < 5 := by omega
      rw [upload_fragment_go]
      simp only [isVcdResponseException, if_true]
      rw [if_pos (hfail a (by omega) (by omega))]
      rw [dif_pos (by simp [_UPLOAD_FRAGMENT_MAX_RETRIES]; omega)]
      exact ih (a + 1) (by omega) (by omega) (by omega)
        (fun j hj1 hj2 => hfail j (by omega) hj2)

/-- If attempt `k ≤ 5` is the first (from `a` on) to get a 200 status, the
loop returns that attempt's response. -/
theorem upload_fragment_go_first_ok (responses : Nat → Nat) :
    ∀ n a k, k - a ≤ n → 1 ≤ a → a ≤ k → k ≤ 5 → responses k = 200 →
    (∀ j, a ≤ j → j < k → responses j ≠ 200) →
    upload_fragment_go responses a = .ok k := by
  intro n
  induction n with
  | zero =>
    intro a k hn h1 hak h5 hok hfail
    have ha : a = k := by omega
    subst ha
    rw [upload_fragment_go]
    rw [if_neg (by simpa using hok)]
  | succ n ih =>
    intro a k hn h1 hak h5 hok hfail
    by_cases ha : a = k
    · subst ha
      rw [upload_fragment_go]
      rw [if_neg (by simpa using hok)]
    · have halt : a < k := by omega
      rw [upload_fragment_go]
      simp only [isVcdResponseException, if_true]
      rw [if_pos (hfail a (by omega) (by omega))]
      rw [dif_pos (by simp [_UPLOAD_FRAGMENT_MAX_RETRIES]; omega)]
      exact ih (a + 1) k (by omega) (by omega) (by omega) h5 hok
        (fun j hj1 hj2 => hfail j (by omega) hj2)

/-- C2 counterexample: a 400 (`BadRequestException`), a 401
(`UnauthorizedException`) and a 500 (`InternalServerException`) on the
first attempt are each retried — the call returns the second attempt's 200
response instead of propagating immediately.  Whatever single taxonomy
class is designated as the transient one, at least two of these are not it,
yet every one is retried, refuting "only the specific transient-response
error class is retried — every other error class from the status-code
taxonomy propagates immediately without any retry". -/
theorem upload_fragment_retries_every_class_counterexample :
    _response_code_to_exception 400 = .badRequest ∧
    _response_code_to_exception 401 = .unauthorized ∧
    _response_code_to_exception 500 = .internalServer ∧
    upload_fragment (fun a => if a = 1 then 400 else 200) = .ok 2 ∧
    upload_fragment (fun a => if a = 1 then 401 else 200) = .ok 2 ∧
    upload_fragment (fun a => if a = 1 then 500 else 200) = .ok 2 := by
  refine ⟨rfl, rfl, rfl, ?_, ?_, ?_⟩ <;>
    simp [upload_fragment, upload_fragment_go, _UPLOAD_FRAGMENT_MAX_RETRIES,
      isVcdResponseException]

/-- C2 amended: a non-200 response to `upload_fragment` is retried up to
the fixed ceiling of 5 attempts, and every error class of the status-code
taxonomy is retried alike (all of them derive from `VcdResponseException`,
the class the retry handler catches): five consecutive non-200 responses
propagate the exception mapped from the fifth, and a 200 on attempt `k ≤ 5`
after `k - 1` failures returns that response. -/
theorem upload_fragment_bounded_retry (responses : Nat → Nat) :
    ((∀ j, 1 ≤ j → j ≤ 5 → responses j ≠ 200) →
      upload_fragment responses =
        .error (_response_code_to_exception (responses 5))) ∧
    (∀ k, 1 ≤ k → k ≤ 5 → responses k = 200 →
      (∀ j, 1 ≤ j → j < k → responses j ≠ 200) →
      upload_fragment responses = .ok k) := by
  constructor
  · intro hfail
    exact upload_fragment_go_all_fail responses 5 1 (by omega) (by omega)
      (by omega) hfail
  · intro k h1 h5 hok hfail
    exact upload_fragment_go_first_ok responses 5 1 k (by omega) (by omega)
      h1 h5 hok hfail

/-- Witness for C2's amended theorem at concrete inputs: five 416s exhaust
the retries and propagate `InvalidContentLengthException`; four 416s
followed by a 200 succeed on the fifth attempt. -/
theorem upload_fragment_bounded_retry_witness :
    (∀ j, 1 ≤ j → j ≤ 5 → (fun _ => (416 : Nat)) j ≠ 200) ∧
    upload_fragment (fun _ => 416) = .error .invalidContentLength ∧
    ((fun a => if a ≤ 4 then (416 : Nat) else 200) 5 = 200) ∧
    upload_fragment (fun a => if a ≤ 4 then 416 else 200) = .ok 5 := by
  refine ⟨fun j h1 h2 => by simp, ?_, by decide, ?_⟩
  · exact (upload_fragment_bounded_retry (fun _ => 416)).1
      (fun j h1 h2 => by simp)
  · exact (upload_fragment_bounded_retry (fun a => if a ≤ 4 then 416 else 200)).2
      5 (by decide) (by decide) (by decide)
      (fun j hj1 hj2 => by simp only [if_pos (show j ≤ 4 by omega)]; decide)

/-! ## Link resolver -/

/-- A `<Link>` element's attributes as read by `get_links` (client.py lines
1778-1781): `rel`, `type`, `href` and `name`, each possibly absent
(`link.get(...)` returns `None`). -/
structure LinkElem where
  rel : Option String
  type : Option String
  href : Option String
  name : Option String
  deriving DecidableEq, Repr

/-- A direct child of a resource document: either a `<Link>` element in the
vcloud namespace, or any other (record) element, identified by its payload.
(`resource.findall('{...}Link')` and `tag.localname == 'Link'` both make
exactly this split.) -/
inductive XmlChild where
  | link (l : LinkElem)
  | record (data : String)
  deriving DecidableEq, Repr

/-- A member of the `RelationType` enum, identified by its `.value`
string. -/
structure RelationType where
  value : String
  deriving DecidableEq, Repr

/-- `RelationType.NEXT_PAGE` (client.py line 215). -/
def RelationType.NEXT_PAGE : RelationType := ⟨"nextPage"⟩

/-- The `<Link>` children of a resource document, in document order
(`resource.findall('{http://www.vmware.com/vcloud/v1.5}Link')`). -/
def linkChildren (resource : List XmlChild) : List LinkElem :=
  resource.filterMap fun c =>
    match c with
    | .link l => some l
    | .record _ => none

/-- `get_links` (client.py lines 1764-1790): keep a link child when the
optional name filter does not reject it (`name is not None and
link_name != name` skips), its `rel` attribute equals the requested
relation's value (`None == rel.value` is false), and either no media type
was requested and the link has no `type` attribute, or the requested media
type equals the link's `type` attribute. -/
def get_links (resource : List XmlChild) (rel : RelationType)
    (media_type : Option String) (name : Option String) : List LinkElem :=
  (linkChildren resource).filter fun link =>
    (match name with
     | some n => link.name == some n
     | none => true) &&
    (link.rel == some rel.value &&
      (match media_type with
       | none => link.type == none
       | some m => link.type == some m))

/-- The two hyperlink-resolution failures (`MissingLinkException`,
`MultipleLinksException`). -/
inductive LinkException where
  | missingLink
  | multipleLinks
  deriving DecidableEq, Repr

/-- `find_link` (client.py lines 1731-1761): zero matches raises
`MissingLinkException` when `fail_if_absent` else returns `None`; exactly
one match returns it; more than one raises `MultipleLinksException`. -/
def find_link (resource : List XmlChild) (rel : RelationType)
    (media_type : Option String) (fail_if_absent : Bool)
    (name : Option String) : Except LinkException (Option LinkElem) :=
  match get_links resource rel media_type name with
  | [] => if fail_if_absent then .error .missingLink else .ok none
  | [l] => .ok (some l)
  | _ => .error .multipleLinks

/-- The boolean filter of `get_links` holds exactly when the claim's match
condition does. -/
theorem get_links_filter_iff (l : LinkElem) (rel : RelationType)
    (media_type name : Option String) :
    ((match name with
      | some n => l.name == some n
      | none => true) &&
     (l.rel == some rel.value &&
       (match media_type with
        | none => l.type == none
        | some m => l.type == some m))) = true ↔
    (l.rel = some rel.value ∧
      ((media_type = none ∧ l.type = none) ∨
        (∃ m, media_type = some m ∧ l.type = some m)) ∧
      (∀ n, name = some n → l.name = some n)) := by
  cases name <;> cases media_type <;>
    simp [and_comm, and_assoc, and_left_comm]

/-- C4: `get_links` returns exactly the link children matching the
(relation, content-type, name) filters — relation equal, and content-type
filter absent with the link typeless or present and equal to the link's
type, narrowed by exact name match when a name is given — and `find_link`
over that match set raises `MissingLinkException` exactly when there are
zero matches and `fail_if_absent` is set (returning `None` otherwise),
returns the sole match, and raises `MultipleLinksException` whenever there
is more than one match, regardless of `fail_if_absent`. -/
theorem find_link_spec (resource : List XmlChild) (rel : RelationType)
    (media_type name : Option String) :
    (∀ l, l ∈ get_links resource rel media_type name ↔
      (XmlChild.link l ∈ resource ∧ l.rel = some rel.value ∧
        ((media_type = none ∧ l.type = none) ∨
          (∃ m, media_type = some m ∧ l.type = some m)) ∧
        (∀ n, name = some n → l.name = some n))) ∧
    (get_links resource rel media_type name = [] →
      find_link resource rel media_type true name = .error .missingLink ∧
      find_link resource rel media_type false name = .ok none) ∧
    (∀ l fail_if_absent, get_links resource rel media_type name = [l] →
      find_link resource rel media_type fail_if_absent name = .ok (some l)) ∧
    (∀ fail_if_absent, 2 ≤ (get_links resource rel media_type name).length →
      find_link resource rel media_type fail_if_absent name =
        .error .multipleLinks) := by
  refine ⟨?_, ?_, ?_, ?_⟩
  · intro l
    have hmem : l ∈ linkChildren resource ↔ XmlChild.link l ∈ resource := by
      constructor
      · intro h
        obtain ⟨c, hc, hf⟩ := List.mem_filterMap.mp h
        cases c with
        | link l2 =>
          obtain rfl : l2 = l := by simpa using hf
          exact hc
        | record d => simp at hf
      · intro h
        exact List.mem_filterMap.mpr ⟨XmlChild.link l, h, rfl⟩
    rw [get_links, List.mem_filter, hmem, get_links_filter_iff]
  · intro h
    rw [find_link, find_link, h]
    exact ⟨rfl, rfl⟩
  · intro l fail_if_absent h
    rw [find_link, h]
  · intro fail_if_absent h
    rw [find_link]
    match hg : get_links resource rel media_type name with
    | [] => rw [hg] at h; simp at h
    | [l] => rw [hg] at h; simp at h
    | a :: b :: t => rfl

/-- Witness for C4's theorem: a document with two links of relation
`down` and no content type; `get_links` returns both and `find_link`
refuses to pick one. -/
theorem find_link_spec_witness :
    (get_links
        [XmlChild.link ⟨some "down", none, some "https://vcd/a", none⟩,
         XmlChild.record "Org",
         XmlChild.link ⟨some "down", none, some "https://vcd/b", none⟩]
        ⟨"down"⟩ none none = [] → False) ∧
    2 ≤ (get_links
        [XmlChild.link ⟨some "down", none, some "https://vcd/a", none⟩,
         XmlChild.record "Org",
         XmlChild.link ⟨some "down", none, some "https://vcd/b", none⟩]
        ⟨"down"⟩ none none).length ∧
    find_link
        [XmlChild.link ⟨some "down", none, some "https://vcd/a", none⟩,
         XmlChild.record "Org",
         XmlChild.link ⟨some "down", none, some "https://vcd/b", none⟩]
        ⟨"down"⟩ none true none = .error .multipleLinks :=
  ⟨by decide, by decide,
    (find_link_spec _ _ _ _).2.2.2 true (by decide)⟩

/-! ## Session manager: logout -/

/-- The parsed `<Session>` document held in `_vcloud_session`; only its
`org` attribute is consulted by the client logic modelled here. -/
structure SessionXml where
  org : Option String
  deriving DecidableEq, Repr

/-- The session-related state of a `Client` (fields initialized in
`Client.__init__`, client.py lines 778-786).  `_session` is the underlying
`requests.Session` connection, modelled by whether one is held. -/
structure ClientState where
  _session : Option Unit
  _vcloud_session : Option SessionXml
  _vcloud_auth_token : Option String
  _vcloud_access_token : Option String
  _session_endpoints : Option (List (String × String))
  _query_list_map : Option (List ((String × String) × String))
  _is_sysadmin : Bool
  deriving DecidableEq, Repr

/-- `Client.logout` (client.py lines 1063-1077): only if a session is
active, issue DELETE on the session resource (the returned boolean records
whether the request was issued), close the connection, and set `_session`,
`_vcloud_session`, `_vcloud_access_token` and `_vcloud_auth_token` to
`None`.  With no active session the method is a no-op returning `None`. -/
def logout (c : ClientState) : ClientState × Bool :=
  if c._session.isSome then
    ({ c with
        _session := none
        _vcloud_session := none
        _vcloud_access_token := none
        _vcloud_auth_token := none }, true)
  else
    (c, false)

/-- The claim's notion of cleared session state, following the spec's
words: "all session state held by the client is cleared".  Per the spec's
data model, the session comprises the connection, the session document, the
authorization credentials, the well-known-endpoint map (populated once per
login), the per-session query catalog cache and the sysadmin flag derived
from the logged-in organization. -/
def allSessionStateCleared (c : ClientState) : Prop :=
  c._session = none ∧ c._vcloud_session = none ∧
  c._vcloud_auth_token = none ∧ c._vcloud_access_token = none ∧
  c._session_endpoints = none ∧ c._query_list_map = none ∧
  c._is_sysadmin = false

instance (c : ClientState) : Decidable (allSessionStateCleared c) := by
  unfold allSessionStateCleared
  infer_instance

/-- C5 counterexample: logging out of a sysadmin client with a populated
endpoint map clears neither `_session_endpoints` nor `_is_sysadmin` (nor
`_query_list_map`), so "all session state held by the client is cleared"
fails on the state produced by `logout`. -/
theorem logout_counterexample :
    ¬ allSessionStateCleared
      (logout ⟨some (), some ⟨some "System"⟩, some "auth-tok",
        some "access-tok", some [("orgList", "https://vcd/api/org")],
        some [(("application/vnd.vmware.vcloud.org+xml", "organization"),
          "https://vcd/api/query?type=organization")], true⟩).1 ∧
    ((logout ⟨some (), some ⟨some "System"⟩, some "auth-tok",
        some "access-tok", some [("orgList", "https://vcd/api/org")],
        some [(("application/vnd.vmware.vcloud.org+xml", "organization"),
          "https://vcd/api/query?type=organization")], true⟩).1._is_sysadmin
      = true) := by
  constructor
  · intro h
    have := h.2.2.2.2.2.2
    simp [logout] at this
  · rfl

/-- C5 amended: `logout` is idempotent — it issues the DELETE exactly when
a session is active, a second call is an error-free no-op — and it clears
the session handle, the session document and both authorization tokens,
which stay cleared after both calls; the well-known-endpoint map, the query
catalog cache and the sysadmin flag are NOT cleared (they survive logout
unchanged). -/
theorem logout_idempotent (c : ClientState) :
    ((logout c).2 = c._session.isSome) ∧
    (c._session.isSome = true →
      ((logout c).1._session = none ∧ (logout c).1._vcloud_session = none ∧
        (logout c).1._vcloud_auth_token = none ∧
        (logout c).1._vcloud_access_token = none)) ∧
    (logout (logout c).1 = ((logout c).1, false)) ∧
    (c._session.isSome = true →
      ((logout (logout c).1).1._session = none ∧
        (logout (logout c).1).1._vcloud_session = none ∧
        (logout (logout c).1).1._vcloud_auth_token = none ∧
        (logout (logout c).1).1._vcloud_access_token = none)) ∧
    ((logout c).1._session_endpoints = c._session_endpoints ∧
      (logout c).1._query_list_map = c._query_list_map ∧
      (logout c).1._is_sysadmin = c._is_sysadmin) := by
  by_cases h : c._session.isSome <;>
    simp [logout, h]

/-- Witness for C5's amended theorem at a concrete logged-in client: the
DELETE is issued, the four session fields are cleared, and the second
`logout` is a no-op. -/
theorem logout_idempotent_witness :
    (ClientState.mk (some ()) (some ⟨some "org1"⟩) (some "tok") none
        (some [("orgList", "https://vcd/api/org")]) none false)._session.isSome
      = true ∧
    (logout (ClientState.mk (some ()) (some ⟨some "org1"⟩) (some "tok") none
        (some [("orgList", "https://vcd/api/org")]) none
        false)).1._vcloud_auth_token = none ∧
    logout (logout (ClientState.mk (some ()) (some ⟨some "org1"⟩)
        (some "tok") none (some [("orgList", "https://vcd/api/org")]) none
        false)).1 =
      ((logout (ClientState.mk (some ()) (some ⟨some "org1"⟩) (some "tok")
        none (some [("orgList", "https://vcd/api/org")]) none
        false)).1, false) := by
  refine ⟨by decide, ?_, ?_⟩
  · exact ((logout_idempotent _).2.1 (by decide)).2.2.1
  · exact (logout_idempotent (ClientState.mk (some ()) (some ⟨some "org1"⟩)
      (some "tok") none (some [("orgList", "https://vcd/api/org")]) none
      false)).2.2.1

/-! ## Request pipeline: header redaction -/

/-- `Client._HEADER_AUTHORIZATION_NAME` (client.py line 722). -/
def _HEADER_AUTHORIZATION_NAME : String := "Authorization"

/-- `Client._HEADER_X_VCLOUD_AUTH_NAME` (client.py line 728). -/
def _HEADER_X_VCLOUD_AUTH_NAME : String := "x-vcloud-authorization"

/-- `Client._HEADER_X_VMWARE_CLOUD_ACCESS_TOKEN_NAME` (client.py line
729). -/
def _HEADER_X_VMWARE_CLOUD_ACCESS_TOKEN_NAME : String :=
  "x-vmware-vcloud-access-token"

/-- `Client._HEADERS_TO_REDACT` (client.py lines 733-737). -/
def _HEADERS_TO_REDACT : List String :=
  [_HEADER_AUTHORIZATION_NAME,
   _HEADER_X_VCLOUD_AUTH_NAME,
   _HEADER_X_VMWARE_CLOUD_ACCESS_TOKEN_NAME]

/-- `Client._redact_headers` (client.py lines 1223-1230): rebuild the
header map, keeping every entry whose key is not in `_HEADERS_TO_REDACT`
and replacing the value of every entry whose key is with the placeholder.
The function takes no logging-tier flags: the three tiers (`log_requests`,
`log_headers`, `log_bodies`) only decide whether a line is logged at all,
never whether it is redacted. -/
def _redact_headers (headers : List (String × String)) :
    List (String × String) :=
  headers.map fun kv =>
    if kv.1 ∈ _HEADERS_TO_REDACT then (kv.1, "[REDACTED]") else kv

/-- C9: redaction preserves the key sequence; every entry with a benign key
survives with its original value; every entry whose key is in the fixed
redaction set comes out with the placeholder value; and nothing else is
produced — every output entry is either a placeholder or an untouched
benign input entry. -/
theorem redact_headers_spec (headers : List (String × String)) :
    ((_redact_headers headers).map Prod.fst = headers.map Prod.fst) ∧
    (∀ k v, (k, v) ∈ headers → k ∉ _HEADERS_TO_REDACT →
      (k, v) ∈ _redact_headers headers) ∧
    (∀ k v, (k, v) ∈ headers → k ∈ _HEADERS_TO_REDACT →
      (k, "[REDACTED]") ∈ _redact_headers headers) ∧
    (∀ k v, (k, v) ∈ _redact_headers headers →
      v = "[REDACTED]" ∨ ((k, v) ∈ headers ∧ k ∉ _HEADERS_TO_REDACT)) := by
  refine ⟨?_, ?_, ?_, ?_⟩
  · rw [_redact_headers, List.map_map]
    apply List.map_congr_left
    intro kv _
    by_cases h : kv.1 ∈ _HEADERS_TO_REDACT <;> simp [h]
  · intro k v hm hk
    exact List.mem_map.mpr ⟨(k, v), hm, by simp [hk]⟩
  · intro k v hm hk
    exact List.mem_map.mpr ⟨(k, v), hm, by simp [hk]⟩
  · intro k v hm
    obtain ⟨⟨k0, v0⟩, h0, heq⟩ := List.mem_map.mp hm
    by_cases hk0 : k0 ∈ _HEADERS_TO_REDACT
    · rw [if_pos hk0] at heq
      obtain ⟨hk, hv⟩ : k0 = k ∧ "[REDACTED]" = v := by
        simpa [Prod.ext_iff] using heq
      exact Or.inl hv.symm
    · rw [if_neg hk0] at heq
      right
      obtain ⟨rfl, rfl⟩ : k0 = k ∧ v0 = v := by
        simpa [Prod.ext_iff] using heq
      exact ⟨h0, hk0⟩

/-- Witness for C9's theorem: headers with the `Authorization` bearer and
two benign keys — the bearing key's value becomes the placeholder, the
benign entries survive unchanged. -/
theorem redact_headers_spec_witness :
    ("Authorization", "Bearer secret") ∈
      [("Authorization", "Bearer secret"), ("Accept", "application/*+xml"),
        ("Host", "vcd.example")] ∧
    "Authorization" ∈ _HEADERS_TO_REDACT ∧
    ("Authorization", "[REDACTED]") ∈ _redact_headers
      [("Authorization", "Bearer secret"), ("Accept", "application/*+xml"),
        ("Host", "vcd.example")] ∧
    ("Accept", "application/*+xml") ∈ _redact_headers
      [("Authorization", "Bearer secret"), ("Accept", "application/*+xml"),
        ("Host", "vcd.example")] :=
  ⟨by decide, by decide,
   (redact_headers_spec _).2.2.1 "Authorization" "Bearer secret"
     (by decide) (by decide),
   (redact_headers_spec _).2.1 "Accept" "application/*+xml"
     (by decide) (by decide)⟩

/-! ## Typed query engine -/

/-- Hexadecimal digit characters as produced by `urllib.parse.quote`
(uppercase). -/
def hexDigit (n : Nat) : Char :=
  if n < 10 then Char.ofNat (48 + n) else Char.ofNat (55 + n)

/-- Characters `urllib.parse.quote` leaves unescaped with its default
`safe='/'`: ASCII letters, digits, `_.-~` and `/`. -/
def isQuoteSafeChar (c : Char) : Bool :=
  (('A' ≤ c && c ≤ 'Z') || ('a' ≤ c && c ≤ 'z') || ('0' ≤ c && c ≤ '9') ||
    c == '_' || c == '.' || c == '-' || c == '~' || c == '/')

/-- The UTF-8 encoding of one character, as the list of its byte values. -/
def utf8Bytes (c : Char) : List Nat :=
  let n := c.toNat
  if n < 0x80 then [n]
  else if n < 0x800 then [0xC0 + n / 0x40, 0x80 + n % 0x40]
  else if n < 0x10000 then
    [0xE0 + n / 0x1000, 0x80 + (n / 0x40) % 0x40, 0x80 + n % 0x40]
  else
    [0xF0 + n / 0x40000, 0x80 + (n / 0x1000) % 0x40, 0x80 + (n / 0x40) % 0x40,
      0x80 + n % 0x40]

/-- `urllib.parse.quote` with its default `safe='/'`: percent-encode every
UTF-8 byte of every unsafe character. -/
def urllib_parse_quote (s : String) : String :=
  String.mk (s.data.foldr (fun c acc =>
    if isQuoteSafeChar c then c :: acc
    else (utf8Bytes c).foldr
      (fun b acc2 => '%' :: hexDigit (b / 16) :: hexDigit (b % 16) :: acc2)
      acc) [])

/-- `_AbstractQuery._escape_special_characters` (client.py lines
1874-1892): on a truthy string, replace the single-encoded forms of
`( ) , ;` with their backslash-escaped forms; `None` and the empty string
pass through. -/
def _escape_special_characters (val : Option String) : Option String :=
  match val with
  | none => none
  | some s =>
    if s ≠ "" then
      some ((((s.replace "%28" "%5C%28").replace "%29" "%5C%29").replace
        "%2C" "%5C%2C").replace "%3B" "%5C%3B")
    else
      some s

/-- The state of an `_AbstractQuery` after `__init__` (client.py lines
1807-1872).  `api_version_float` is the numeric value
`float(client.get_api_version())` consulted at lines 1850 and 2006; the
query-result format only matters for the catalog lookup, which is passed
in as `query_href` at `execute` time. -/
structure AbstractQuery where
  api_version_float : Rat
  page_size : Option Nat
  include_links : Bool
  query_all_pages : Bool
  page : Nat
  _filter : Option String
  sort_asc : Option String
  sort_desc : Option String
  fields : Option String
  deriving DecidableEq, Repr

/-- `_AbstractQuery.__init__` (client.py lines 1807-1872):
`_query_all_pages` starts true with `_page = 1` and is overridden exactly
when the `page` argument is truthy (so `page=0` behaves like `page=None`);
below API version 35 the filter is stored as given, otherwise its special
characters are escaped; a truthy `equality_filter` pair is AND-ed (`;`)
onto the filter, its value URL-quoted and escaped at or above version
35. -/
def mkAbstractQuery (api_version_float : Rat) (page : Option Nat)
    (page_size : Option Nat) (include_links : Bool) (qfilter : Option String)
    (equality_filter : Option (String × String))
    (sort_asc sort_desc fields : Option String) : AbstractQuery :=
  let qp : Bool × Nat :=
    match page with
    | some p => if p ≠ 0 then (false, p) else (true, 1)
    | none => (true, 1)
  let is_below_v35_query := api_version_float < 35
  let f0 := if is_below_v35_query then qfilter
    else _escape_special_characters qfilter
  let f1 :=
    match equality_filter with
    | none => f0
    | some ef =>
      let base :=
        match f0 with
        | some s => if s ≠ "" then s ++ ";" else ""
        | none => ""
      let value :=
        if is_below_v35_query then ef.2
        else
          match _escape_special_characters (some (urllib_parse_quote ef.2)) with
          | some s => s
          | none => ""
      some (base ++ ef.1 ++ "==" ++ value)
  { api_version_float := api_version_float
    page_size := page_size
    include_links := include_links
    query_all_pages := qp.1
    page := qp.2
    _filter := f1
    sort_asc := sort_asc
    sort_desc := sort_desc
    fields := fields }

/-- `_AbstractQuery._build_query_uri` (client.py lines 1990-2032): append
`&page=`, optional `&pageSize=`, the version-dependent filter encoding
(below version 35 the value is quoted once more and `filterEncoded=true`
is signalled; at or above, the already-escaped value is appended bare),
optional `&fields=`, `&sortAsc=`, `&sortDesc=`.  (`include_links` is a
parameter of the source method but unused in its body.) -/
def _build_query_uri (api_version_float : Rat)
    (sort_asc sort_desc : Option String) (base_query_href : String)
    (page : Nat) (page_size : Option Nat) (qfilter : Option String)
    (_include_links : Bool) (fields : Option String) : String :=
  let uri := base_query_href ++ "&page=" ++ toString page
  let uri :=
    match page_size with
    | some ps => uri ++ "&pageSize=" ++ toString ps
    | none => uri
  let uri :=
    match qfilter with
    | some f =>
      if f ≠ "" then
        if api_version_float < 35 then
          uri ++ "&filterEncoded=true&filter=" ++ urllib_parse_quote f
        else
          uri ++ "&filter=" ++ f
      else uri
    | none => uri
  let uri :=
    match fields with
    | some fl => uri ++ "&fields=" ++ fl
    | none => uri
  let uri :=
    match sort_asc with
    | some s => uri ++ "&sortAsc=" ++ s
    | none => uri
  let uri :=
    match sort_desc with
    | some s => uri ++ "&sortDesc=" ++ s
    | none => uri
  uri

/-- The query URI `execute` builds for a given page number: the source
calls `_build_query_uri` three times with identical arguments except the
page (current, `page+1`, `page-1`). -/
def page_query_uri (q : AbstractQuery) (query_href : String) (page : Nat) :
    String :=
  _build_query_uri q.api_version_float q.sort_asc q.sort_desc query_href
    page q.page_size q._filter q.include_links q.fields

/-- A query-result document: its `total` attribute (the parse
`int(query_results.get('total'))` is abstracted to the number itself) and
its direct children. -/
structure QueryPage where
  total : Nat
  children : List XmlChild
  deriving DecidableEq, Repr

/-- The modelled server: a table from URI to the query-result document a
GET of that URI returns.  `get_resource` is the client's fetch-and-parse
of one URI. -/
def get_resource (server : List (String × QueryPage)) (uri : String) :
    Option QueryPage :=
  (server.find? (fun e => e.1 == uri)).map Prod.snd

/-- Failures of `execute` and of the pagination generator.
`nonterminating` marks fuel exhaustion: the generator is still following
next-page links. -/
inductive QueryExecError where
  | operationNotSupported
  | typeError
  | resourceNotFound
  | nonterminating
  deriving DecidableEq, Repr

/-- The `next_page_uri` scan of one result page (client.py lines
1954-1959): every `Link` child with the reserved `nextPage` relation
overwrites the pending next-page URI with its `href` attribute (possibly
absent); other children leave it. -/
def nextPageUriOf (page : QueryPage) : Option String :=
  page.children.foldl (fun acc c =>
    match c with
    | .link l =>
      if l.rel == some RelationType.NEXT_PAGE.value then l.href else acc
    | .record _ => acc) none

/-- The children a result page yields: every direct child whose tag is not
`Link`, in document order (client.py lines 1955-1961 and 1945-1948). -/
def recordChildren (page : QueryPage) : List XmlChild :=
  page.children.filter fun c =>
    match c with
    | .link _ => false
    | .record _ => true

/-- `_AbstractQuery._iterator` (client.py lines 1952-1965): yield the
non-link children of the current page, then stop if no `nextPage` link was
seen, else fetch the linked page and continue.  The generator's lazy
yields are collected into the returned list. -/
def _iterator (server : List (String × QueryPage)) :
    QueryPage → Nat → Except QueryExecError (List XmlChild)
  | _, 0 => .error .nonterminating
  | query_results, fuel + 1 =>
    match nextPageUriOf query_results with
    | none => .ok (recordChildren query_results)
    | some next_page_uri =>
      match get_resource server next_page_uri with
      | none => .error .resourceNotFound
      | some next =>
        match _iterator server next fuel with
        | .ok rest => .ok (recordChildren query_results ++ rest)
        | .error e => .error e

/-- A finite chain of result pages: each page's `nextPage` link resolves on
the server to the following page, and the last page has no `nextPage`
link. -/
inductive PageChain (server : List (String × QueryPage)) :
    QueryPage → List QueryPage → Prop
  | last (p : QueryPage) (h : nextPageUriOf p = none) : PageChain server p [p]
  | cons (p q : QueryPage) (uri : String) (ps : List QueryPage)
      (h1 : nextPageUriOf p = some uri)
      (h2 : get_resource server uri = some q)
      (h3 : PageChain server q ps) : PageChain server p (p :: ps)

/-- C6: over any finite chain of result pages, the stream-all iterator
terminates — it fetches a page only when a `nextPage`-relation link is
present, stops at the first page without one — and yields exactly the
non-link record children of each page of the chain, in original document
order. -/
theorem iterator_yields_chain_records (server : List (String × QueryPage))
    (p : QueryPage) (ps : List QueryPage) (h : PageChain server p ps)
    (fuel : Nat) (hfuel : ps.length ≤ fuel) :
    _iterator server p fuel = .ok (ps.map recordChildren).flatten := by
  induction h generalizing fuel with
  | last p hnone =>
    match fuel, hfuel with
    | fuel + 1, _ =>
      simp [_iterator, hnone]
  | cons p q uri ps h1 h2 h3 ih =>
    match fuel, hfuel with
    | fuel + 1, hfuel =>
      simp [_iterator, h1, h2, ih fuel (by simpa using hfuel)]

/-- The first page of the synthetic 3-page result set used by C6's
witness (2 records, a `nextPage` link to page 2). -/
def chainPage1 : QueryPage :=
  ⟨5, [XmlChild.record "r1", XmlChild.record "r2",
    XmlChild.link ⟨some "nextPage", none, some "https://vcd/q&page=2",
      none⟩]⟩

/-- The second page of the synthetic result set (2 records, a `nextPage`
link to page 3). -/
def chainPage2 : QueryPage :=
  ⟨5, [XmlChild.record "r3", XmlChild.record "r4",
    XmlChild.link ⟨some "nextPage", none, some "https://vcd/q&page=3",
      none⟩]⟩

/-- The last page of the synthetic result set (1 record, no `nextPage`
link). -/
def chainPage3 : QueryPage := ⟨5, [XmlChild.record "r5"]⟩

/-- The server for C6's witness, serving pages 2 and 3 at their linked
URIs. -/
def chainServer : List (String × QueryPage) :=
  [("https://vcd/q&page=2", chainPage2), ("https://vcd/q&page=3", chainPage3)]

/-- Witness for C6's theorem: a synthetic 3-page result set (page size 2,
5 records total) yields exactly the 5 records in order and terminates. -/
theorem iterator_yields_chain_records_witness :
    PageChain chainServer chainPage1 [chainPage1, chainPage2, chainPage3] ∧
    ([chainPage1, chainPage2, chainPage3].length ≤ 3) ∧
    _iterator chainServer chainPage1 3 =
      .ok [XmlChild.record "r1", XmlChild.record "r2", XmlChild.record "r3",
        XmlChild.record "r4", XmlChild.record "r5"] := by
  have hch : PageChain chainServer chainPage1
      [chainPage1, chainPage2, chainPage3] :=
    PageChain.cons chainPage1 chainPage2 "https://vcd/q&page=2"
      [chainPage2, chainPage3] (by decide) (by decide)
      (PageChain.cons chainPage2 chainPage3 "https://vcd/q&page=3"
        [chainPage3] (by decide) (by decide)
        (PageChain.last chainPage3 (by decide)))
  refine ⟨hch, by decide, ?_⟩
  rw [iterator_yields_chain_records chainServer chainPage1 _ hch 3
    (by decide)]
  rfl

/-- The dictionary returned by single-page `execute` (client.py lines
1922-1950).  `previousPageUri = none` models the `'previousPageUri'` key
being absent (the source only inserts it when `page > 1`; `nextPageUri` is
explicitly initialized to `None`). -/
structure PageResultDict where
  resultTotal : Nat
  nextPageUri : Option String
  previousPageUri : Option String
  values : List XmlChild
  deriving DecidableEq, Repr

/-- What `execute` produces: the stream-all generator's record sequence,
or the single-page result dictionary. -/
inductive ExecuteResult where
  | records (rs : List XmlChild)
  | pageResult (r : PageResultDict)
  deriving DecidableEq, Repr

/-- `_AbstractQuery.execute` (client.py lines 1894-1950): fail with
`OperationNotSupportedException` on a null catalog URI; build the query
URI and fetch it; in stream-all mode return the generator over the fetched
page; otherwise read the total, compute `nextPageUri` exactly when
`page * page_size < total` (an unguarded multiplication: `page_size` None
raises `TypeError` here), insert `previousPageUri` exactly when
`page > 1`, and return the page's non-link children. -/
def execute (server : List (String × QueryPage)) (fuel : Nat)
    (q : AbstractQuery) (query_href : Option String) :
    Except QueryExecError ExecuteResult :=
  match query_href with
  | none => .error .operationNotSupported
  | some href =>
    let query_uri := page_query_uri q href q.page
    match get_resource server query_uri with
    | none => .error .resourceNotFound
    | some query_results =>
      if q.query_all_pages then
        match _iterator server query_results fuel with
        | .ok rs => .ok (.records rs)
        | .error e => .error e
      else
        let resultTotal := query_results.total
        match q.page_size with
        | none => .error .typeError
        | some page_size =>
          let nextPageUri : Option String :=
            if q.page * page_size < resultTotal then
              some (page_query_uri q href (q.page + 1))
            else none
          let previousPageUri : Option String :=
            if 1 < q.page then some (page_query_uri q href (q.page - 1))
            else none
          .ok (.pageResult
            ⟨resultTotal, nextPageUri, previousPageUri,
              recordChildren query_results⟩)

/-- Projections of `mkAbstractQuery` under a truthy page argument. -/
theorem mkAbstractQuery_page_pos (api_version_float : Rat)
    (page_size : Option Nat) (include_links : Bool) (qfilter : Option String)
    (equality_filter : Option (String × String))
    (sort_asc sort_desc fields : Option String) (p : Nat) (hp : p ≠ 0) :
    (mkAbstractQuery api_version_float (some p) page_size include_links
      qfilter equality_filter sort_asc sort_desc fields).page = p ∧
    (mkAbstractQuery api_version_float (some p) page_size include_links
      qfilter equality_filter sort_asc sort_desc fields).query_all_pages
      = false ∧
    (mkAbstractQuery api_version_float (some p) page_size include_links
      qfilter equality_filter sort_asc sort_desc fields).page_size
      = page_size := by
  refine ⟨?_, ?_, ?_⟩ <;> simp [mkAbstractQuery, hp]

/-- C7: single-page execution with explicit page `p ≠ 0` and page size `s`
against a result with total `t` returns a page dictionary whose record
list is the page's non-link children, which carries a next-page URI
exactly when `p * s < t` and a previous-page URI exactly when `p > 1`; in
particular page 1 never yields a previous-page URI, and page 2 with page
size 25 yields a next-page URI exactly when `t > 50` and always a
previous-page URI. -/
theorem execute_single_page_spec (server : List (String × QueryPage))
    (fuel : Nat) (api_version_float : Rat) (p s : Nat) (include_links : Bool)
    (qfilter : Option String) (equality_filter : Option (String × String))
    (sort_asc sort_desc fields : Option String) (href : String)
    (pg : QueryPage) (hp : p ≠ 0)
    (hlook : get_resource server
      (page_query_uri (mkAbstractQuery api_version_float (some p) (some s)
        include_links qfilter equality_filter sort_asc sort_desc fields)
        href p) = some pg) :
    ∃ r : PageResultDict,
      execute server fuel
        (mkAbstractQuery api_version_float (some p) (some s) include_links
          qfilter equality_filter sort_asc sort_desc fields) (some href) =
        .ok (.pageResult r) ∧
      r.resultTotal = pg.total ∧
      r.values = recordChildren pg ∧
      (r.nextPageUri.isSome ↔ p * s < pg.total) ∧
      (r.previousPageUri.isSome ↔ 1 < p) ∧
      (p = 1 → r.previousPageUri = none) ∧
      (p = 2 → s = 25 →
        ((r.nextPageUri.isSome ↔ 50 < pg.total) ∧
          r.previousPageUri.isSome)) := by
  obtain ⟨hpage, hstream, hps⟩ := mkAbstractQuery_page_pos api_version_float
    (some s) include_links qfilter equality_filter sort_asc sort_desc fields
    p hp
  rw [execute]
  rw [hpage, hlook, hstream, hps]
  simp only [Bool.false_eq_true, if_false]
  refine ⟨_, rfl, rfl, rfl, ?_, ?_, ?_, ?_⟩
  · by_cases hc : p * s < pg.total <;> simp [hc]
  · by_cases hc : 1 < p <;> simp [hc]
  · intro hp1
    subst hp1
    simp
  · intro hp2 hs25
    subst hp2
    subst hs25
    constructor
    · by_cases hc : 50 < pg.total <;> norm_num [hc]
    · simp

/-- The demonstration query for C7's witness: page 2, page size 25, no
filters, API version 33.0. -/
def demoQuery : AbstractQuery :=
  mkAbstractQuery 33 (some 2) (some 25) false none none none none none

/-- The demonstration result page for C7's witness: total 51 (> 50). -/
def demoPage : QueryPage :=
  ⟨51, [XmlChild.record "org1", XmlChild.record "org2"]⟩

/-- The demonstration server for C7's witness, serving `demoPage` at the
URI `execute` builds for page 2. -/
def demoServer : List (String × QueryPage) :=
  [(page_query_uri demoQuery "https://vcd/api/query?type=organization" 2,
    demoPage)]

/-- Witness for C7's theorem at a concrete query (page 2, page size 25,
total 51): a next-page URI (51 > 50) and a previous-page URI are both
present. -/
theorem execute_single_page_spec_witness :
    (2 : Nat) ≠ 0 ∧
    get_resource demoServer
      (page_query_uri demoQuery "https://vcd/api/query?type=organization" 2)
      = some demoPage ∧
    ∃ r : PageResultDict,
      execute demoServer 0 demoQuery
        (some "https://vcd/api/query?type=organization") =
        .ok (.pageResult r) ∧
      r.resultTotal = demoPage.total ∧
      r.values = recordChildren demoPage ∧
      (r.nextPageUri.isSome ↔ 2 * 25 < demoPage.total) ∧
      (r.previousPageUri.isSome ↔ 1 < 2) ∧
      ((2 : Nat) = 1 → r.previousPageUri = none) ∧
      ((2 : Nat) = 2 → (25 : Nat) = 25 →
        ((r.nextPageUri.isSome ↔ 50 < demoPage.total) ∧
          r.previousPageUri.isSome)) := by
  refine ⟨by decide, by decide, ?_⟩
  exact execute_single_page_spec demoServer 0 33 2 25 false none none none
    none none "https://vcd/api/query?type=organization" demoPage
    (by decide) (by decide)

/-- C10: although `page_size` is an optional constructor argument,
single-page execution requires it — with a truthy `page` and
`page_size=None`, `execute` reads the total and then hits the unguarded
`self._page * self._page_size`, raising `TypeError` instead of returning a
page result; and a falsy explicit `page=0` leaves the constructed query
identical to one built with `page=None`: stream-all mode with the page
number fixed at 1. -/
theorem execute_page_size_none_type_error (server : List (String × QueryPage))
    (fuel : Nat) (api_version_float : Rat) (p : Nat) (include_links : Bool)
    (qfilter : Option String) (equality_filter : Option (String × String))
    (sort_asc sort_desc fields : Option String) (href : String)
    (pg : QueryPage) (hp : p ≠ 0)
    (hlook : get_resource server
      (page_query_uri (mkAbstractQuery api_version_float (some p) none
        include_links qfilter equality_filter sort_asc sort_desc fields)
        href p) = some pg) :
    execute server fuel
      (mkAbstractQuery api_version_float (some p) none include_links qfilter
        equality_filter sort_asc sort_desc fields) (some href) =
      .error .typeError ∧
    (∀ page_size : Option Nat,
      mkAbstractQuery api_version_float (some 0) page_size include_links
        qfilter equality_filter sort_asc sort_desc fields =
        mkAbstractQuery api_version_float none page_size include_links
          qfilter equality_filter sort_asc sort_desc fields ∧
      (mkAbstractQuery api_version_float (some 0) page_size include_links
        qfilter equality_filter sort_asc sort_desc fields).query_all_pages
        = true ∧
      (mkAbstractQuery api_version_float (some 0) page_size include_links
        qfilter equality_filter sort_asc sort_desc fields).page = 1) := by
  obtain ⟨hpage, hstream, hps⟩ := mkAbstractQuery_page_pos api_version_float
    none include_links qfilter equality_filter sort_asc sort_desc fields p hp
  constructor
  · rw [execute]
    rw [hpage, hlook, hstream, hps]
    simp
  · intro page_size
    refine ⟨?_, ?_, ?_⟩ <;> simp [mkAbstractQuery]

/-- Witness for C10's theorem: a query built with `page=3`,
`page_size=None` against a served page fails with `TypeError`, and
`page=0` builds the same query as `page=None`. -/
theorem execute_page_size_none_type_error_witness :
    (3 : Nat) ≠ 0 ∧
    get_resource
      [(page_query_uri (mkAbstractQuery 33 (some 3) none false none none
          none none none) "https://vcd/api/query?type=vm" 3,
        QueryPage.mk 7 [XmlChild.record "vm1"])]
      (page_query_uri (mkAbstractQuery 33 (some 3) none false none none none
        none none) "https://vcd/api/query?type=vm" 3) =
      some (QueryPage.mk 7 [XmlChild.record "vm1"]) ∧
    execute
      [(page_query_uri (mkAbstractQuery 33 (some 3) none false none none
          none none none) "https://vcd/api/query?type=vm" 3,
        QueryPage.mk 7 [XmlChild.record "vm1"])]
      0 (mkAbstractQuery 33 (some 3) none false none none none none none)
      (some "https://vcd/api/query?type=vm") = .error .typeError ∧
    mkAbstractQuery 33 (some 0) (some 25) false none none none none none =
      mkAbstractQuery 33 none (some 25) false none none none none none := by
  refine ⟨by decide, by decide, ?_, ?_⟩
  · exact (execute_page_size_none_type_error _ 0 33 3 false none none none
      none none "https://vcd/api/query?type=vm" (QueryPage.mk 7
        [XmlChild.record "vm1"]) (by decide) (by decide)).1
  · exact ((execute_page_size_none_type_error
      [(page_query_uri (mkAbstractQuery 33 (some 3) none false none none
          none none none) "https://vcd/api/query?type=vm" 3,
        QueryPage.mk 7 [XmlChild.record "vm1"])]
      0 33 3 false none none none none none "https://vcd/api/query?type=vm"
      (QueryPage.mk 7 [XmlChild.record "vm1"]) (by decide)
      (by decide)).2 (some 25)).1

/-! ## Session manager: API version negotiation -/

/-- A `distutils.version.StrictVersion` value as built from a dotted
version string `X.Y[.Z]`: numeric major, minor and patch components
(patch 0 when absent; vCD version strings carry no prerelease tag). -/
structure StrictVersion where
  major : Nat
  minor : Nat
  patch : Nat
  deriving DecidableEq, Repr

/-- `StrictVersion` ordering: true numeric comparison, component by
component (so 5.10 > 5.9, unlike the string ordering). -/
def StrictVersion.le (a b : StrictVersion) : Bool :=
  decide (a.major < b.major ∨ (a.major = b.major ∧
    (a.minor < b.minor ∨ (a.minor = b.minor ∧ a.patch ≤ b.patch))))

theorem StrictVersion.le_refl (a : StrictVersion) : StrictVersion.le a a = true := by
  simp [StrictVersion.le]

theorem StrictVersion.le_trans {a b c : StrictVersion}
    (h1 : StrictVersion.le a b = true) (h2 : StrictVersion.le b c = true) :
    StrictVersion.le a c = true := by
  simp only [StrictVersion.le, decide_eq_true_eq] at h1 h2 ⊢
  omega

theorem StrictVersion.le_total (a b : StrictVersion) :
    StrictVersion.le a b = true ∨ StrictVersion.le b a = true := by
  simp only [StrictVersion.le, decide_eq_true_eq]
  omega

/-- Insert into a list sorted by `StrictVersion.le`, keeping it sorted. -/
def orderedInsert (a : StrictVersion) :
    List StrictVersion → List StrictVersion
  | [] => [a]
  | b :: t =>
    if StrictVersion.le a b then a :: b :: t else b :: orderedInsert a t

/-- The ascending numeric sort performed by
`active_versions.sort(key=StrictVersion)` (client.py line 913), realized
as an insertion sort under the `StrictVersion` ordering. -/
def sortVersions : List StrictVersion → List StrictVersion
  | [] => []
  | a :: t => orderedInsert a (sortVersions t)

theorem mem_orderedInsert (v a : StrictVersion) (l : List StrictVersion) :
    v ∈ orderedInsert a l ↔ v = a ∨ v ∈ l := by
  induction l with
  | nil => simp [orderedInsert]
  | cons b t ih =>
    rw [orderedInsert]
    by_cases h : StrictVersion.le a b = true
    · simp [h]
    · simp [h, ih]
      tauto

theorem mem_sortVersions (v : StrictVersion) (l : List StrictVersion) :
    v ∈ sortVersions l ↔ v ∈ l := by
  induction l with
  | nil => simp [sortVersions]
  | cons a t ih => simp [sortVersions, mem_orderedInsert, ih]

theorem pairwise_orderedInsert (a : StrictVersion) (l : List StrictVersion)
    (h : l.Pairwise (fun x y => StrictVersion.le x y = true)) :
    (orderedInsert a l).Pairwise (fun x y => StrictVersion.le x y = true) := by
  induction l with
  | nil => simp [orderedInsert]
  | cons b t ih =>
    obtain ⟨hb, ht⟩ := List.pairwise_cons.mp h
    rw [orderedInsert]
    by_cases hab : StrictVersion.le a b = true
    · rw [if_pos hab]
      refine List.pairwise_cons.mpr ⟨?_, h⟩
      intro x hx
      rcases List.mem_cons.mp hx with rfl | hx2
      · exact hab
      · exact StrictVersion.le_trans hab (hb x hx2)
    · rw [if_neg hab]
      have hba : StrictVersion.le b a = true :=
        (StrictVersion.le_total a b).resolve_left hab
      refine List.pairwise_cons.mpr ⟨?_, ih ht⟩
      intro x hx
      rcases (mem_orderedInsert x a t).mp hx with rfl | hx2
      · exact hba
      · exact hb x hx2

theorem pairwise_sortVersions (l : List StrictVersion) :
    (sortVersions l).Pairwise (fun x y => StrictVersion.le x y = true) := by
  induction l with
  | nil => simp [sortVersions]
  | cons a t ih => exact pairwise_orderedInsert a _ ih

/-- One `<VersionInfo>` entry of the `GET /versions` response, keeping
apart the two distinct reads of client.py lines 910-911: on an
lxml.objectify element, `hasattr(version, 'deprecated')` tests for a child
ELEMENT named `deprecated` (`deprecatedChild`), while
`version.get('deprecated')` reads the XML ATTRIBUTE `deprecated`
(`deprecatedAttr`).  On the vCD wire format the deprecation mark is the
attribute (`<VersionInfo deprecated="true">`) and no such child element
exists. -/
structure VersionInfo where
  version : StrictVersion
  deprecatedChild : Bool
  deprecatedAttr : Option String
  deriving DecidableEq, Repr

/-- The filter of client.py lines 910-911, literally: keep the entry when
it has no `deprecated` child element, or its `deprecated` XML attribute
equals `'false'`.  Note the mismatch embedded here: presence is tested on
the child element, the value is read from the attribute. -/
def isActiveVersion (v : VersionInfo) : Bool :=
  !v.deprecatedChild || v.deprecatedAttr == some "false"

/-- `Client.get_supported_versions_list` (client.py lines 887-914): the
non-deprecated advertised versions, sorted ascending by the numeric
`StrictVersion` key (string-to-version parsing of `version.Version.text`
is abstracted into `VersionInfo.version`). -/
def get_supported_versions_list (versions : List VersionInfo) :
    List StrictVersion :=
  sortVersions ((versions.filter isActiveVersion).map VersionInfo.version)

/-- `API_CURRENT_VERSIONS` (client.py lines 113-122): the versions this
client supports, in ascending order. -/
def API_CURRENT_VERSIONS : List StrictVersion :=
  [⟨29, 0, 0⟩, ⟨30, 0, 0⟩, ⟨31, 0, 0⟩, ⟨32, 0, 0⟩, ⟨33, 0, 0⟩, ⟨34, 0, 0⟩,
    ⟨35, 0, 0⟩, ⟨36, 0, 0⟩]

/-- The failure of version negotiation: the `VcdException('Unable to find
a supported API version in available server versions: ...')` of client.py
lines 850-853. -/
inductive VersionNegotiationError where
  | noSupportedVersion
  deriving DecidableEq, Repr

/-- `Client._negotiate_api_version` (client.py lines 832-853): keep a
pinned version unchanged; otherwise walk the sorted active server versions
backwards and select the first one contained in `API_CURRENT_VERSIONS`,
failing if none is. -/
def _negotiate_api_version (api_version : Option StrictVersion)
    (server_versions : List VersionInfo) :
    Except VersionNegotiationError StrictVersion :=
  match api_version with
  | some v => .ok v
  | none =>
    let active_versions := get_supported_versions_list server_versions
    match active_versions.reverse.find?
        (fun version => decide (version ∈ API_CURRENT_VERSIONS)) with
    | some v => .ok v
    | none => .error .noSupportedVersion

/-- `find?` on a descending list returns a maximal element among those
satisfying the predicate. -/
theorem find_desc_is_max (p : StrictVersion → Bool) :
    ∀ l : List StrictVersion,
    l.Pairwise (fun x y => StrictVersion.le y x = true) →
    ∀ v, l.find? p = some v →
    p v = true ∧ v ∈ l ∧
      ∀ w ∈ l, p w = true → StrictVersion.le w v = true := by
  intro l
  induction l with
  | nil => intro _ v h; simp at h
  | cons a t ih =>
    intro hp v hf
    obtain ⟨ha, ht⟩ := List.pairwise_cons.mp hp
    by_cases hpa : p a = true
    · rw [List.find?_cons_of_pos _ hpa] at hf
      obtain rfl : a = v := by simpa using hf
      refine ⟨hpa, List.mem_cons_self _ _, ?_⟩
      intro w hw hpw
      rcases List.mem_cons.mp hw with rfl | hw2
      · exact StrictVersion.le_refl _
      · exact ha w hw2
    · rw [List.find?_cons_of_neg _ hpa] at hf
      obtain ⟨h1, h2, h3⟩ := ih ht v hf
      refine ⟨h1, List.mem_cons_of_mem _ h2, ?_⟩
      intro w hw hpw
      rcases List.mem_cons.mp hw with rfl | hw2
      · exact absurd hpw hpa
      · exact h3 w hw2 hpw

/-- With no version pinned at construction, negotiation over any
server-advertised version list retains exactly the entries passing the
source's deprecation filter, and under the numeric (not string)
`StrictVersion` ordering selects the highest retained version that is
locally supported — never a lower one — failing with the
unsupported-version error exactly when no retained version is locally
supported.  (Which entries the filter actually retains is a separate
question: see the deprecation-filter analysis below.) -/
theorem negotiate_api_version_spec (server_versions : List VersionInfo) :
    (∀ v, _negotiate_api_version none server_versions = .ok v →
      ((∃ e ∈ server_versions, isActiveVersion e = true ∧ e.version = v) ∧
        v ∈ API_CURRENT_VERSIONS ∧
        ∀ w, (∃ e ∈ server_versions, isActiveVersion e = true ∧
            e.version = w) →
          w ∈ API_CURRENT_VERSIONS → StrictVersion.le w v = true)) ∧
    (_negotiate_api_version none server_versions =
        .error .noSupportedVersion ↔
      ¬ ∃ v, (∃ e ∈ server_versions, isActiveVersion e = true ∧
          e.version = v) ∧ v ∈ API_CURRENT_VERSIONS) := by
  have hactive : ∀ v, v ∈ get_supported_versions_list server_versions ↔
      ∃ e ∈ server_versions, isActiveVersion e = true ∧ e.version = v := by
    intro v
    rw [get_supported_versions_list, mem_sortVersions]
    simp only [List.mem_map, List.mem_filter]
    constructor
    · rintro ⟨e, ⟨he, hact⟩, hv⟩
      exact ⟨e, he, hact, hv⟩
    · rintro ⟨e, he, hact, hv⟩
      exact ⟨e, ⟨he, hact⟩, hv⟩
  have hsorted : (get_supported_versions_list server_versions).reverse.Pairwise
      (fun x y => StrictVersion.le y x = true) := by
    rw [List.pairwise_reverse]
    exact pairwise_sortVersions _
  constructor
  · intro v hok
    rw [_negotiate_api_version] at hok
    rcases hf : (get_supported_versions_list server_versions).reverse.find?
        (fun version => decide (version ∈ API_CURRENT_VERSIONS)) with _ | w
    · rw [hf] at hok
      exact absurd hok (by simp)
    · rw [hf] at hok
      obtain rfl : w = v := by simpa using hok
      obtain ⟨h1, h2, h3⟩ := find_desc_is_max _ _ hsorted _ hf
      refine ⟨(hactive _).mp (List.mem_reverse.mp h2),
        of_decide_eq_true h1, ?_⟩
      intro w hw hwapi
      exact h3 w (List.mem_reverse.mpr ((hactive w).mpr hw))
        (decide_eq_true hwapi)
  · constructor
    · intro herr
      rw [_negotiate_api_version] at herr
      rcases hf : (get_supported_versions_list server_versions).reverse.find?
          (fun version => decide (version ∈ API_CURRENT_VERSIONS)) with _ | w
      · rintro ⟨v, hv, hvapi⟩
        have := List.find?_eq_none.mp hf v
          (List.mem_reverse.mpr ((hactive v).mpr hv))
        exact this (decide_eq_true hvapi)
      · rw [hf] at herr
        exact absurd herr (by simp)
    · intro hno
      rw [_negotiate_api_version]
      have hf : (get_supported_versions_list server_versions).reverse.find?
          (fun version => decide (version ∈ API_CURRENT_VERSIONS)) = none := by
        rw [List.find?_eq_none]
        intro x hx hdec
        exact hno ⟨x, (hactive x).mp (List.mem_reverse.mp hx),
          of_decide_eq_true hdec⟩
      rw [hf]

/-- A server version list exercising `negotiate_api_version_spec`: 31.0
attribute-marked `'false'`, 33.0 unmarked, 34.0 carrying a `deprecated`
child element (dropped by the filter), and 37.0 advertised but not locally
supported. -/
def demoServerVersions : List VersionInfo :=
  [⟨⟨31, 0, 0⟩, false, some "false"⟩, ⟨⟨33, 0, 0⟩, false, none⟩,
    ⟨⟨34, 0, 0⟩, true, none⟩, ⟨⟨37, 0, 0⟩, false, none⟩]

/-- Witness for `negotiate_api_version_spec`: against
`demoServerVersions`, negotiation selects 33.0 — not the dropped 34.0, not
the unsupported 37.0, and not the lower 31.0 — and 33.0 is maximal among
the retained, locally supported versions. -/
theorem negotiate_api_version_spec_witness :
    _negotiate_api_version none demoServerVersions = .ok ⟨33, 0, 0⟩ ∧
    (⟨33, 0, 0⟩ : StrictVersion) ∈ API_CURRENT_VERSIONS ∧
    (∀ w, (∃ e ∈ demoServerVersions, isActiveVersion e = true ∧
        e.version = w) →
      w ∈ API_CURRENT_VERSIONS → StrictVersion.le w ⟨33, 0, 0⟩ = true) := by
  have h := (negotiate_api_version_spec demoServerVersions).1 ⟨33, 0, 0⟩
    (by rfl)
  exact ⟨rfl, h.2.1, h.2.2⟩

/-- C3: the deprecation filter of `get_supported_versions_list` cannot
implement the claimed filtering, because `hasattr(version, 'deprecated')`
tests for a child ELEMENT while `version.get('deprecated')` reads the XML
ATTRIBUTE (client.py lines 910-911).  On the attribute-marked wire format
no `deprecated` child element exists, so every advertised entry —
deprecated or not — passes the filter, and negotiation selects the highest
locally supported version among all of them: against
`[36.0 with deprecated="true", 31.0 unmarked]` it selects the deprecated
36.0, where the claim (and the function's own docstring, "Return
non-deprecated server API versions as a list") require 36.0 to be dropped
and 31.0 selected.  Dually, an entry carrying a `deprecated` child element
is dropped even when the attribute does not mark it deprecated. -/
theorem get_supported_versions_no_filter (versions : List VersionInfo)
    (hwire : ∀ e ∈ versions, e.deprecatedChild = false) :
    (∀ v, v ∈ get_supported_versions_list versions ↔
      ∃ e ∈ versions, e.version = v) ∧
    isActiveVersion ⟨⟨36, 0, 0⟩, false, some "true"⟩ = true ∧
    isActiveVersion ⟨⟨31, 0, 0⟩, true, none⟩ = false ∧
    _negotiate_api_version none
      [⟨⟨36, 0, 0⟩, false, some "true"⟩, ⟨⟨31, 0, 0⟩, false, none⟩] =
      .ok ⟨36, 0, 0⟩ := by
  refine ⟨?_, rfl, rfl, rfl⟩
  intro v
  rw [get_supported_versions_list, mem_sortVersions]
  simp only [List.mem_map, List.mem_filter]
  constructor
  · rintro ⟨e, ⟨he, _⟩, hv⟩
    exact ⟨e, he, hv⟩
  · rintro ⟨e, he, hv⟩
    refine ⟨e, ⟨he, ?_⟩, hv⟩
    simp [isActiveVersion, hwire e he]

/-- Witness for C3's theorem on the concrete wire-format input: the entry
advertised with `deprecated="true"` survives the filter into the supported
list, and negotiation returns it. -/
theorem get_supported_versions_no_filter_witness :
    (∀ e ∈ [(⟨⟨36, 0, 0⟩, false, some "true"⟩ : VersionInfo),
        ⟨⟨31, 0, 0⟩, false, none⟩], e.deprecatedChild = false) ∧
    (⟨36, 0, 0⟩ : StrictVersion) ∈ get_supported_versions_list
      [⟨⟨36, 0, 0⟩, false, some "true"⟩, ⟨⟨31, 0, 0⟩, false, none⟩] ∧
    _negotiate_api_version none
      [⟨⟨36, 0, 0⟩, false, some "true"⟩, ⟨⟨31, 0, 0⟩, false, none⟩] =
      .ok ⟨36, 0, 0⟩ := by
  have h := get_supported_versions_no_filter
    [⟨⟨36, 0, 0⟩, false, some "true"⟩, ⟨⟨31, 0, 0⟩, false, none⟩]
    (by decide)
  exact ⟨by decide, (h.1 ⟨36, 0, 0⟩).mpr
    ⟨⟨⟨36, 0, 0⟩, false, some "true"⟩, by decide, rfl⟩, h.2.2.2⟩

end PyVcd
